import Mathlib

/-!
# Shallow embedding of the PricingEngine repository

This file embeds the data model and the operations of the `pricingengine`
Python package (curve-node containers, swap-leg cashflow schedules, the
interest-rate-swap and swaption instrument layer) and proves properties of
that embedding.

Modelling conventions, used uniformly below:

* QuantLib `Date` values are modelled as integers (serial day numbers);
  `Period` values (tenors) as integer day offsets, so that the source
  expression `valuation_date - tenor` is integer subtraction.
* Python `float` arithmetic is idealised as real arithmetic (`ℝ`) where the
  source computes with `exp`/`log`, and as rational arithmetic (`ℚ`) for the
  plain additive nominal/rate bookkeeping of the swap legs.
* The external analytics collaborator (QuantLib) is opaque: schedule
  generation, curve objects, index objects and pricing engines are modelled
  either as explicit function parameters (`ScheduleGen`, `PricingEnv`,
  `SwaptionEnv`) or as inert records capturing exactly the arguments the
  source passes to the collaborator (`Handle`, `FixedRateLegArgs`,
  `IborLegArgs`, `VanillaSwapArgs`, `SwaptionQlArgs`).
* Python exceptions are modelled with `Except PyError`; a dataclass
  `__post_init__` that can raise is modelled either by an explicit
  `Except`-valued construction function or (for the real-valued
  `CurveNodes`, whose range checks are not decidable) by the `Prop`-valued
  predicate `CurveNodes.Valid`, which holds exactly when `__post_init__`
  returns without raising.
* `src/pricingengine/termstructures/curve_nodes.py` and
  `src/pricingengine/structures/curve_nodes.py` implement the same
  validation, handle-building and bump logic up to field renaming
  (`as_of`/`asof`, `day_counter`/`day_count`); the single `CurveNodes`
  model below covers both, using the `termstructures` field names.
-/

namespace PricingEngine

/-- QuantLib `Date`, modelled as a serial day number. -/
abbrev Date := Int

/-- Opaque QuantLib rate-index object, modelled as a token. -/
abbrev Index := Nat

/-- Python exception values raised by the modelled code. -/
inductive PyError
  | valueError (msg : String)
  | typeError (msg : String)
  | runtimeError (msg : String)
  deriving DecidableEq, Repr

/-! ## CurveNodes (termstructures/curve_nodes.py and structures/curve_nodes.py) -/

/-- `QuoteKind = Literal["zero", "discount", "forward", "flat"]`. -/
inductive QuoteKind
  | zero
  | discount
  | forward
  | flat
  deriving DecidableEq, Repr

/-- `CurveRole = Literal["discounting", "forecasting", "other"]`. -/
inductive CurveRole
  | discounting
  | forecasting
  | other
  deriving DecidableEq, Repr

/-- The `CurveNodes` frozen dataclass: node dates with parallel quotes plus
metadata.  `day_counter` is the opaque QuantLib `DayCounter`, of which the
source only ever uses `yearFraction(d1, d2)`; it is therefore modelled as the
year-fraction function itself. -/
structure CurveNodes where
  as_of : Date
  dates : List Date
  quotes : List ℝ
  day_counter : Date → Date → ℝ
  quote_kind : QuoteKind
  role : CurveRole

/-- `CurveNodes.__post_init__`: this predicate holds exactly when the
constructor returns without raising `ValueError` — at least one node, equal
lengths, strictly increasing dates, and (for `quote_kind == "discount"`)
all quotes in `(0, 1]`. -/
def CurveNodes.Valid (c : CurveNodes) : Prop :=
  c.dates ≠ [] ∧
  c.dates.length = c.quotes.length ∧
  c.dates.Chain' (· < ·) ∧
  (c.quote_kind = QuoteKind.discount → ∀ q ∈ c.quotes, 0 < q ∧ q ≤ 1)

/-- `CurveNodes.bump(bp)`: the record produced by the `replace(self, ...)` /
`type(self)(...)` call in the source.  Note that in Python this construction
re-runs `__post_init__`, so the value is actually *returned* only when it
again satisfies `CurveNodes.Valid`; otherwise the call raises. -/
noncomputable def CurveNodes.bump (c : CurveNodes) (bp : ℝ) : CurveNodes :=
  let bump_r : ℝ := bp / 10000
  match c.quote_kind with
  | QuoteKind.zero =>
      { c with quotes := c.quotes.map (fun q => q + bump_r) }
  | QuoteKind.flat =>
      { c with quotes := c.quotes.map (fun q => q + bump_r) }
  | QuoteKind.discount =>
      { c with
        quotes :=
          (c.dates.zip c.quotes).map (fun p =>
            let t := c.day_counter c.as_of p.1
            if t ≤ 0 then p.2
            else Real.exp (-((-Real.log p.2 / t) + bump_r) * t)) }
  | QuoteKind.forward =>
      { c with quotes := c.quotes.map (fun q => q + bump_r) }

/-- The opaque yield-term-structure objects the source hands to QuantLib,
recorded with exactly the constructor arguments the source passes. -/
inductive Handle
  | flatForward (as_of : Date) (quote : ℝ) (day_counter : Date → Date → ℝ)
  | zeroCurve (dates : List Date) (quotes : List ℝ)
      (day_counter : Date → Date → ℝ)
  | discountCurve (dates : List Date) (discounts : List ℝ)
      (day_counter : Date → Date → ℝ)
  | forwardCurve (dates : List Date) (quotes : List ℝ)
      (day_counter : Date → Date → ℝ)

/-- `CurveNodes.yts_handle`: builds the QuantLib term structure for the
nodes, raising `ValueError` for a `discount`/`forward` curve with fewer than
two nodes, and for a `flat` curve with more than one quote.  For a
`discount` curve whose first date is not `as_of`, the pair
`(as_of, 1.0)` is prepended. -/
def CurveNodes.ytsHandle (c : CurveNodes) : Except PyError Handle :=
  match c.quote_kind with
  | QuoteKind.zero =>
      if c.quotes.length = 1 then
        Except.ok (Handle.flatForward c.as_of c.quotes.headI c.day_counter)
      else
        Except.ok (Handle.zeroCurve c.dates c.quotes c.day_counter)
  | QuoteKind.discount =>
      if c.quotes.length < 2 then
        Except.error (PyError.valueError
          "discount curve needs at least two discount nodes")
      else if c.dates.headI ≠ c.as_of then
        Except.ok (Handle.discountCurve (c.as_of :: c.dates) (1 :: c.quotes)
          c.day_counter)
      else
        Except.ok (Handle.discountCurve c.dates c.quotes c.day_counter)
  | QuoteKind.forward =>
      if c.quotes.length < 2 then
        Except.error (PyError.valueError "forward curve needs at least two nodes")
      else
        Except.ok (Handle.forwardCurve c.dates c.quotes c.day_counter)
  | QuoteKind.flat =>
      if c.quotes.length = 1 then
        Except.ok (Handle.flatForward c.as_of c.quotes.headI c.day_counter)
      else
        Except.error (PyError.valueError
          "quote_kind flat expects exactly one zero rate")

/-- `CurveNodes.to_handle()`: alias for the handle builder. -/
def CurveNodes.toHandle (c : CurveNodes) : Except PyError Handle :=
  c.ytsHandle

/-- `CurveNodes.discount_factor(date)`: queries the cached handle; `disc` is
the opaque QuantLib `YieldTermStructureHandle.discount` evaluation. -/
def CurveNodes.discountFactor (disc : Handle → Date → ℝ) (c : CurveNodes)
    (d : Date) : Except PyError ℝ :=
  (c.ytsHandle).map (fun h => disc h d)

/-! ## Swap legs (cashflows/swap_leg.py) -/

/-- The external schedule service (`forward_marching_schedule`, built on
QuantLib `Schedule` with fixed conventions): from `(start, end, period,
calendar)` it produces the ordered list of adjusted payment dates.  The
generator itself is out of scope (QuantLib), so it is an opaque parameter;
`calendar` is an opaque token. -/
structure ScheduleGen where
  gen : Date → Date → Int → Nat → List Date

/-- Base dataclass `SwapLeg`: payment-schedule parameters of one leg.
`day_counter` and `calendar` are opaque QuantLib objects the leg only passes
through, modelled as tokens. -/
structure SwapLeg where
  valuation_date : Date
  nominal : ℚ
  currency : String
  issue_date : Date
  maturity : Date
  tenor : Int
  calendar : Nat
  day_counter : Nat
  deriving DecidableEq, Repr

/-- `SwapLeg.__post_init__`: raises when `nominal < 0` or when the currency
is unsupported.  The source checks membership in
`pricingengine.currencies.CURRENCIES`; that module is not part of the
sources, so the supported-currency list is an explicit parameter. -/
def SwapLeg.postInit (CURRENCIES : List String) (l : SwapLeg) :
    Except PyError Unit :=
  if l.nominal < 0 then
    Except.error (PyError.valueError "nominal must be positive")
  else if l.currency ∉ CURRENCIES then
    Except.error (PyError.valueError
      "currency is not supported in QuantLib - unable to create index")
  else
    Except.ok ()

/-- `SwapLeg.schedule`: all payment dates, from the external generator. -/
def SwapLeg.schedule (G : ScheduleGen) (l : SwapLeg) : List Date :=
  G.gen l.issue_date l.maturity l.tenor l.calendar

/-- `SwapLeg.future_schedule`: the schedule dates strictly after the cutoff
`corrected_start = valuation_date - tenor`.  (The source re-wraps the date
tuple in a QuantLib `Schedule` via `update_dates_in_schedule`; only the date
list is observable here.) -/
def SwapLeg.futureSchedule (G : ScheduleGen) (l : SwapLeg) : List Date :=
  (l.schedule G).filter (fun d => l.valuation_date - l.tenor < d)

/-- `SwapLeg.nominals`: the constant nominal, once per schedule date. -/
def SwapLeg.nominals (G : ScheduleGen) (l : SwapLeg) : List ℚ :=
  (l.schedule G).map (fun _ => l.nominal)

/-- The body of `SwapLeg.future_nominals` for a given `nominals` tuple
(`self.nominals` is an overridable property, so it is a parameter here):
`zip(nominals, schedule.dates())` filtered by the same cutoff as
`future_schedule`, keeping the nominal component. -/
def SwapLeg.futureNominalsOf (G : ScheduleGen) (l : SwapLeg)
    (noms : List ℚ) : List ℚ :=
  ((noms.zip (l.schedule G)).filter
    (fun p => l.valuation_date - l.tenor < p.2)).map Prod.fst

/-- `SwapLeg.future_nominals` for the plain (constant-nominal) legs. -/
def SwapLeg.futureNominals (G : ScheduleGen) (l : SwapLeg) : List ℚ :=
  l.futureNominalsOf G (l.nominals G)

/-- `FixedLeg(SwapLeg)` with its fixed `rate`. -/
structure FixedLeg extends SwapLeg where
  rate : ℚ
  deriving DecidableEq, Repr

/-- `FloatingLeg(SwapLeg)` with optional bound index, `gearing`, `spread`. -/
structure FloatingLeg extends SwapLeg where
  index : Option Index
  gearing : ℚ
  spread : ℚ
  deriving DecidableEq, Repr

/-- `FloatingLeg.with_index`: copy with the index bound. -/
def FloatingLeg.withIndex (l : FloatingLeg) (i : Index) : FloatingLeg :=
  { l with index := some i }

/-- The argument record the source passes to the external `FixedRateLeg`
coupon builder. -/
structure FixedRateLegArgs where
  scheduleDates : List Date
  dayCounter : Nat
  nominals : List ℚ
  rates : List ℚ
  deriving DecidableEq, Repr

/-- The argument record the source passes to the external `IborLeg`
coupon builder. -/
structure IborLegArgs where
  nominals : List ℚ
  scheduleDates : List Date
  index : Index
  paymentDayCounter : Nat
  gearings : List ℚ
  spreads : List ℚ
  deriving DecidableEq, Repr

/-- The body of `FixedLeg.cashflows` over a given `future_nominals` value
(amortized subclasses reuse this body with their overridden nominals):
rates are replicated over the *whole* future schedule while nominals drop
the final point (`future_nominals[:-1]`). -/
def FixedLeg.cashflowsWith (G : ScheduleGen) (l : FixedLeg)
    (futNoms : List ℚ) : FixedRateLegArgs :=
  { scheduleDates := SwapLeg.futureSchedule G l.toSwapLeg
    dayCounter := l.day_counter
    nominals := futNoms.dropLast
    rates := (SwapLeg.futureSchedule G l.toSwapLeg).map (fun _ => l.rate) }

/-- `FixedLeg.cashflows()`. -/
def FixedLeg.cashflows (G : ScheduleGen) (l : FixedLeg) : FixedRateLegArgs :=
  l.cashflowsWith G (SwapLeg.futureNominals G l.toSwapLeg)

/-- The body of `FloatingLeg.cashflows` over a given `future_nominals`
value: `idx = forecast_index or self.index`, raising when both are absent;
gearings and spreads are replicated over `future_schedule.dates()[:-1]`. -/
def FloatingLeg.cashflowsWith (G : ScheduleGen) (l : FloatingLeg)
    (futNoms : List ℚ) (forecast_index : Option Index) :
    Except PyError IborLegArgs :=
  match (match forecast_index with
         | some i => some i
         | none => l.index) with
  | none =>
      Except.error (PyError.valueError
        "FloatingLeg needs an Index (pass forecast_index=... or set leg.index)")
  | some idx =>
      Except.ok
        { nominals := futNoms.dropLast
          scheduleDates := SwapLeg.futureSchedule G l.toSwapLeg
          index := idx
          paymentDayCounter := l.day_counter
          gearings :=
            ((SwapLeg.futureSchedule G l.toSwapLeg).dropLast).map
              (fun _ => l.gearing)
          spreads :=
            ((SwapLeg.futureSchedule G l.toSwapLeg).dropLast).map
              (fun _ => l.spread) }

/-- `FloatingLeg.cashflows(forecast_index)`. -/
def FloatingLeg.cashflows (G : ScheduleGen) (l : FloatingLeg)
    (forecast_index : Option Index) : Except PyError IborLegArgs :=
  l.cashflowsWith G (SwapLeg.futureNominals G l.toSwapLeg) forecast_index

/-- `AmortizedSwapLeg(SwapLeg)`: amortization parameters.  (In the source
`AmortizedFixedLeg`/`AmortizedFloatingLeg` use multiple inheritance from
`FixedLeg`/`FloatingLeg` and `AmortizedSwapLeg`; here the parent fields are
flattened into a linear extension chain, which yields the same field set.) -/
structure AmortizedSwapLeg extends SwapLeg where
  amortization_amount : ℚ
  amortization_period : Int
  amortization_first_date : Date
  amortization_last_date : Date
  deriving DecidableEq, Repr

/-- `AmortizedSwapLeg.amortization_schedule`: the amortization dates, from
the same external generator as payment schedules. -/
def AmortizedSwapLeg.amortizationSchedule (G : ScheduleGen)
    (a : AmortizedSwapLeg) : List Date :=
  G.gen a.amortization_first_date a.amortization_last_date
    a.amortization_period a.calendar

/-- `AmortizedSwapLeg.nominals`: for each payment date, the initial nominal
minus one `amortization_amount` per amortization date at or before it,
floored at zero by `max(0.0, ...)`. -/
def AmortizedSwapLeg.nominals (G : ScheduleGen) (a : AmortizedSwapLeg) :
    List ℚ :=
  (SwapLeg.schedule G a.toSwapLeg).map (fun date =>
    max 0 (a.nominal -
      (((a.amortizationSchedule G).filter (fun ad => ad ≤ date)).map
        (fun _ => a.amortization_amount)).sum))

/-- `AmortizedSwapLeg.future_nominals` (inherited body, amortized
`nominals`). -/
def AmortizedSwapLeg.futureNominals (G : ScheduleGen)
    (a : AmortizedSwapLeg) : List ℚ :=
  SwapLeg.futureNominalsOf G a.toSwapLeg (a.nominals G)

/-- `AmortizedSwapLeg.__post_init__`: the base checks, then
`all(nominal >= 0 for nominal in self.nominals)` with a `ValueError` when it
fails. -/
def AmortizedSwapLeg.postInit (CURRENCIES : List String) (G : ScheduleGen)
    (a : AmortizedSwapLeg) : Except PyError Unit := do
  let _ ← SwapLeg.postInit CURRENCIES a.toSwapLeg
  if ¬ (∀ n ∈ a.nominals G, 0 ≤ n) then
    Except.error (PyError.valueError
      "Amortized swap leg cannot produce negative cashflow nominals.")
  else
    Except.ok ()

/-- Constructing an `AmortizedSwapLeg` value: the dataclass returns the
value exactly when `__post_init__` does not raise. -/
def AmortizedSwapLeg.construct (CURRENCIES : List String) (G : ScheduleGen)
    (a : AmortizedSwapLeg) : Except PyError AmortizedSwapLeg :=
  (a.postInit CURRENCIES G).map (fun _ => a)

/-- `AmortizedFixedLeg(FixedLeg, AmortizedSwapLeg)` (fields flattened). -/
structure AmortizedFixedLeg extends AmortizedSwapLeg where
  rate : ℚ
  deriving DecidableEq, Repr

/-- `AmortizedFloatingLeg(FloatingLeg, AmortizedSwapLeg)` (flattened). -/
structure AmortizedFloatingLeg extends AmortizedSwapLeg where
  index : Option Index
  gearing : ℚ
  spread : ℚ
  deriving DecidableEq, Repr

/-- `AmortizedFixedLeg.cashflows()`: the inherited `FixedLeg.cashflows`
body, dispatching to the amortized `nominals`. -/
def AmortizedFixedLeg.cashflows (G : ScheduleGen) (l : AmortizedFixedLeg) :
    FixedRateLegArgs :=
  FixedLeg.cashflowsWith G
    { toSwapLeg := l.toAmortizedSwapLeg.toSwapLeg, rate := l.rate }
    (AmortizedSwapLeg.futureNominals G l.toAmortizedSwapLeg)

/-- `AmortizedFloatingLeg.cashflows(forecast_index)`: the inherited
`FloatingLeg.cashflows` body with the amortized `nominals`. -/
def AmortizedFloatingLeg.cashflows (G : ScheduleGen)
    (l : AmortizedFloatingLeg) (forecast_index : Option Index) :
    Except PyError IborLegArgs :=
  FloatingLeg.cashflowsWith G
    { toSwapLeg := l.toAmortizedSwapLeg.toSwapLeg, index := l.index,
      gearing := l.gearing, spread := l.spread }
    (AmortizedSwapLeg.futureNominals G l.toAmortizedSwapLeg) forecast_index

/-! ## InterestRateSwap (instruments/interest_rate_swap.py) -/

/-- A leg value as accepted by `InterestRateSwap` (annotated
`FixedLeg | FloatingLeg`; the amortized subclasses are instances of those
two classes). -/
inductive AnyLeg
  | fixedLeg (l : FixedLeg)
  | floatingLeg (l : FloatingLeg)
  | amortizedFixedLeg (l : AmortizedFixedLeg)
  | amortizedFloatingLeg (l : AmortizedFloatingLeg)
  deriving DecidableEq, Repr

/-- The `SwapLeg` fields shared by every leg class. -/
def AnyLeg.base : AnyLeg → SwapLeg
  | AnyLeg.fixedLeg l => l.toSwapLeg
  | AnyLeg.floatingLeg l => l.toSwapLeg
  | AnyLeg.amortizedFixedLeg l => l.toSwapLeg
  | AnyLeg.amortizedFloatingLeg l => l.toSwapLeg

/-- `isinstance(leg, FixedLeg)` (true for `AmortizedFixedLeg` too). -/
def AnyLeg.isFixedKind : AnyLeg → Bool
  | AnyLeg.fixedLeg _ => true
  | AnyLeg.amortizedFixedLeg _ => true
  | _ => false

/-- `isinstance(leg, FloatingLeg)` (true for `AmortizedFloatingLeg` too). -/
def AnyLeg.isFloatingKind : AnyLeg → Bool
  | AnyLeg.floatingLeg _ => true
  | AnyLeg.amortizedFloatingLeg _ => true
  | _ => false

/-- `getattr(leg, "index", None)`. -/
def AnyLeg.boundIndex : AnyLeg → Option Index
  | AnyLeg.floatingLeg l => l.index
  | AnyLeg.amortizedFloatingLeg l => l.index
  | _ => none

/-- `.rate` of a fixed-kind leg (never read on floating legs; defaulted). -/
def AnyLeg.rateOf : AnyLeg → ℚ
  | AnyLeg.fixedLeg l => l.rate
  | AnyLeg.amortizedFixedLeg l => l.rate
  | _ => 0

/-- `.spread` of a floating-kind leg (never read on fixed legs). -/
def AnyLeg.spreadOf : AnyLeg → ℚ
  | AnyLeg.floatingLeg l => l.spread
  | AnyLeg.amortizedFloatingLeg l => l.spread
  | _ => 0

/-- The `InterestRateSwap` dataclass (after a successful
`__post_init__`). -/
structure InterestRateSwap where
  paying_leg : AnyLeg
  receiving_leg : AnyLeg
  deriving DecidableEq, Repr

/-- `InterestRateSwap.__post_init__`, in source order: same-kind checks
first (both `FixedLeg`, then both `FloatingLeg`), then the four alignment
checks (`valuation_date`, `issue_date`, `maturity`, `currency`).  The
leading `issubclass(..., SwapLeg)` guard is vacuous here since every
`AnyLeg` is a `SwapLeg` subclass. -/
def InterestRateSwap.construct (p r : AnyLeg) :
    Except PyError InterestRateSwap :=
  if p.isFixedKind ∧ r.isFixedKind then
    Except.error (PyError.valueError
      "paying_leg and receiving_leg cannot be of the same type FixedLeg")
  else if p.isFloatingKind ∧ r.isFloatingKind then
    Except.error (PyError.valueError
      "paying_leg and receiving_leg cannot be of the same type FloatingLeg")
  else if p.base.valuation_date ≠ r.base.valuation_date then
    Except.error (PyError.valueError
      "paying_leg and receiving_leg must have the same valuation_date")
  else if p.base.issue_date ≠ r.base.issue_date then
    Except.error (PyError.valueError
      "paying_leg and receiving_leg must have the same issue_date")
  else if p.base.maturity ≠ r.base.maturity then
    Except.error (PyError.valueError
      "paying_leg and receiving_leg must have the same maturity")
  else if p.base.currency ≠ r.base.currency then
    Except.error (PyError.valueError
      "paying_leg and receiving_leg must have the same currency")
  else
    Except.ok { paying_leg := p, receiving_leg := r }

/-- `InterestRateSwap.valuation_date` (taken from the receiving leg). -/
def InterestRateSwap.valuationDate (s : InterestRateSwap) : Date :=
  s.receiving_leg.base.valuation_date

/-- `InterestRateSwap.currency` (taken from the receiving leg). -/
def InterestRateSwap.currency (s : InterestRateSwap) : String :=
  s.receiving_leg.base.currency

/-- `InterestRateSwap.issue_date` (taken from the receiving leg). -/
def InterestRateSwap.issueDate (s : InterestRateSwap) : Date :=
  s.receiving_leg.base.issue_date

/-- `InterestRateSwap.maturity` (taken from the receiving leg). -/
def InterestRateSwap.maturity (s : InterestRateSwap) : Date :=
  s.receiving_leg.base.maturity

/-- `InterestRateSwap.is_expired`: `valuation_date >= maturity`. -/
def InterestRateSwap.isExpired (s : InterestRateSwap) : Bool :=
  decide (s.maturity ≤ s.valuationDate)

/-- `InterestRateSwap._leg(FixedLeg)`: the receiving leg if it is
fixed-kind, else the paying leg, else `RuntimeError`. -/
def InterestRateSwap.fixedLeg (s : InterestRateSwap) :
    Except PyError AnyLeg :=
  if s.receiving_leg.isFixedKind then Except.ok s.receiving_leg
  else if s.paying_leg.isFixedKind then Except.ok s.paying_leg
  else Except.error (PyError.runtimeError "swap is missing FixedLeg")

/-- `InterestRateSwap._leg(FloatingLeg)`. -/
def InterestRateSwap.floatingLeg (s : InterestRateSwap) :
    Except PyError AnyLeg :=
  if s.receiving_leg.isFloatingKind then Except.ok s.receiving_leg
  else if s.paying_leg.isFloatingKind then Except.ok s.paying_leg
  else Except.error (PyError.runtimeError "swap is missing FloatingLeg")

/-- `InterestRateSwap._resolve_index`: an explicit `forecast_index` wins;
otherwise the floating leg's bound index; otherwise `ValueError`. -/
def InterestRateSwap.resolveIndex (s : InterestRateSwap)
    (forecast_index : Option Index) : Except PyError Index :=
  match forecast_index with
  | some i => Except.ok i
  | none => do
      let fl ← s.floatingLeg
      match fl.boundIndex with
      | some i => Except.ok i
      | none =>
          Except.error (PyError.valueError
            "Missing forecasting Index: pass forecast_index=... or set floating_leg.index.")

/-- The cashflow streams handed to the external `Swap` constructor. -/
inductive LegCashflows
  | fixedCf (a : FixedRateLegArgs)
  | floatingCf (a : IborLegArgs)
  deriving DecidableEq, Repr

/-- The cashflow-building dispatch inside `_swap_ql`:
`leg.cashflows()` when `isinstance(leg, FixedLeg)` else
`leg.cashflows(forecast_index=idx)`. -/
def AnyLeg.cashflowsWith (G : ScheduleGen) (idx : Index) :
    AnyLeg → Except PyError LegCashflows
  | AnyLeg.fixedLeg l => Except.ok (LegCashflows.fixedCf (l.cashflows G))
  | AnyLeg.amortizedFixedLeg l =>
      Except.ok (LegCashflows.fixedCf (l.cashflows G))
  | AnyLeg.floatingLeg l =>
      (l.cashflows G (some idx)).map LegCashflows.floatingCf
  | AnyLeg.amortizedFloatingLeg l =>
      (l.cashflows G (some idx)).map LegCashflows.floatingCf

/-- The QuantLib `Swap` + `DiscountingSwapEngine` object built by
`_swap_ql`, recorded as the arguments the source passes to QuantLib. -/
structure SwapQlArgs where
  payingCf : LegCashflows
  receivingCf : LegCashflows
  engineHandle : Handle

/-- `InterestRateSwap._swap_ql(forecast_index, discount_nodes)`: resolve
the index, build both cashflow legs, attach the discounting engine built
from `discount_nodes.yts_handle()`. -/
def InterestRateSwap.swapQl (G : ScheduleGen) (s : InterestRateSwap)
    (forecast_index : Option Index) (discount_nodes : CurveNodes) :
    Except PyError SwapQlArgs := do
  let idx ← s.resolveIndex forecast_index
  let pay ← s.paying_leg.cashflowsWith G idx
  let rcv ← s.receiving_leg.cashflowsWith G idx
  let h ← discount_nodes.ytsHandle
  Except.ok { payingCf := pay, receivingCf := rcv, engineHandle := h }

/-- The external pricing collaborator consumed by the valuation and risk
methods: swap NPV, per-leg BPS, and index cloning onto a new handle. -/
structure PricingEnv where
  npv : SwapQlArgs → ℝ
  legBPS : SwapQlArgs → Nat → ℝ
  cloneIndex : Index → Handle → Index

/-- `InterestRateSwap.mark_to_market`: `0.0` when expired, else the engine
NPV of `_swap_ql(...)`. -/
noncomputable def InterestRateSwap.markToMarket (env : PricingEnv)
    (G : ScheduleGen) (s : InterestRateSwap) (discount_nodes : CurveNodes)
    (forecast_index : Option Index) : Except PyError ℝ :=
  if s.isExpired then Except.ok 0
  else (s.swapQl G forecast_index discount_nodes).map env.npv

/-- `InterestRateSwap.mtm`: alias delegating to `mark_to_market`. -/
noncomputable def InterestRateSwap.mtm (env : PricingEnv)
    (G : ScheduleGen) (s : InterestRateSwap) (forecast_index : Option Index)
    (discount_nodes : CurveNodes) : Except PyError ℝ :=
  s.markToMarket env G discount_nodes forecast_index

/-- `InterestRateSwap.pv01`: `legBPS` of the fixed leg (index 0 when the
fixed leg is the paying leg, since `_leg` scans the receiving leg first).
No expiry check appears in the source. -/
noncomputable def InterestRateSwap.pv01 (env : PricingEnv)
    (G : ScheduleGen) (s : InterestRateSwap) (discount_nodes : CurveNodes)
    (forecast_index : Option Index) : Except PyError ℝ := do
  let _ ← s.fixedLeg
  let legIndex : Nat := if s.receiving_leg.isFixedKind then 1 else 0
  let q ← s.swapQl G forecast_index discount_nodes
  Except.ok (env.legBPS q legIndex)

/-- `InterestRateSwap.dv01`: `legBPS` of the floating leg. -/
noncomputable def InterestRateSwap.dv01 (env : PricingEnv)
    (G : ScheduleGen) (s : InterestRateSwap) (discount_nodes : CurveNodes)
    (forecast_index : Option Index) : Except PyError ℝ := do
  let _ ← s.floatingLeg
  let legIndex : Nat := if s.receiving_leg.isFloatingKind then 1 else 0
  let q ← s.swapQl G forecast_index discount_nodes
  Except.ok (env.legBPS q legIndex)

/-- `InterestRateSwap.ir01_discount`: finite difference of the NPV under a
parallel bump of the discounting nodes.  (The bumped `CurveNodes` is
re-validated on construction in Python; that raising path is captured by
`CurveNodes.Valid`, see the bump theorems.) -/
noncomputable def InterestRateSwap.ir01Discount (env : PricingEnv)
    (G : ScheduleGen) (s : InterestRateSwap) (discount_nodes : CurveNodes)
    (forecast_index : Option Index) (bump_bp : ℝ) : Except PyError ℝ := do
  let base ← (s.swapQl G forecast_index discount_nodes).map env.npv
  let bumpedNodes := discount_nodes.bump bump_bp
  let bumped ← (s.swapQl G forecast_index bumpedNodes).map env.npv
  Except.ok ((bumped - base) / bump_bp)

/-- `InterestRateSwap.ir01_forecast`: finite difference under a bump of the
forecasting nodes, pricing with the original index and with a clone of it
on the bumped handle. -/
noncomputable def InterestRateSwap.ir01Forecast (env : PricingEnv)
    (G : ScheduleGen) (s : InterestRateSwap) (forecast_nodes : CurveNodes)
    (discount_nodes : CurveNodes) (base_index : Option Index)
    (bump_bp : ℝ) : Except PyError ℝ := do
  let idx0 ← s.resolveIndex base_index
  let h ← (forecast_nodes.bump bump_bp).ytsHandle
  let idxBumped := env.cloneIndex idx0 h
  let base ← (s.swapQl G (some idx0) discount_nodes).map env.npv
  let bumped ← (s.swapQl G (some idxBumped) discount_nodes).map env.npv
  Except.ok ((bumped - base) / bump_bp)

/-- The QuantLib `VanillaSwap` object (plus its discounting engine) built
by `_vanilla_swap_ql` / the swaption payoff builder, recorded as the
constructor arguments the source passes. -/
structure VanillaSwapArgs where
  isPayer : Bool
  nominal : ℚ
  fixedSchedule : List Date
  fixedRate : ℝ
  fixedDayCounter : Nat
  floatingSchedule : List Date
  index : Index
  spread : ℚ
  floatingDayCounter : Nat
  engineHandle : Handle

/-- `InterestRateSwap._vanilla_swap_ql(forecast_index, discount_nodes)`:
builds a `VanillaSwap` from the fixed/floating leg parameters (payer when
the fixed leg is the paying leg) with the discounting engine attached. -/
def InterestRateSwap.vanillaSwapQl (G : ScheduleGen) (s : InterestRateSwap)
    (forecast_index : Option Index) (discount_nodes : CurveNodes) :
    Except PyError VanillaSwapArgs := do
  let idx ← s.resolveIndex forecast_index
  let fl ← s.fixedLeg
  let flo ← s.floatingLeg
  let h ← discount_nodes.ytsHandle
  Except.ok
    { isPayer := !s.receiving_leg.isFixedKind
      nominal := fl.base.nominal
      fixedSchedule := SwapLeg.futureSchedule G fl.base
      fixedRate := (fl.rateOf : ℝ)
      fixedDayCounter := fl.base.day_counter
      floatingSchedule := SwapLeg.futureSchedule G flo.base
      index := idx
      spread := flo.spreadOf
      floatingDayCounter := flo.base.day_counter
      engineHandle := h }

/-- Models the call `self.swap._vanilla_swap_ql()` at
`instruments/swaption.py` line 85: `_vanilla_swap_ql` declares two required
positional parameters (`forecast_index`, `discount_nodes`) and the call
supplies neither, so Python raises `TypeError` before the body runs. -/
def InterestRateSwap.vanillaSwapQlNoArgs (_s : InterestRateSwap) :
    Except PyError VanillaSwapArgs :=
  Except.error (PyError.typeError
    "_vanilla_swap_ql() missing 2 required positional arguments: forecast_index and discount_nodes")

/-! ## Swaption (instruments/swaption.py) -/

/-- Python `str.lower()`, modelled character-wise (all uses here are ASCII
configuration strings). -/
def pyLower (s : String) : String :=
  String.mk (s.data.map Char.toLower)

/-- The `Swaption` frozen dataclass.  Field defaults in the source:
`expiries=None`, `strike=None`, `volatility=0.01`, `vol_type="black"`,
`settlement="physical"`, `is_long=True`. -/
structure Swaption where
  swap : InterestRateSwap
  expiries : Option (List Date)
  strike : Option ℝ
  volatility : ℝ
  vol_type : String
  settlement : String
  is_long : Bool

/-- `Swaption.valuation_date` (delegated to the swap). -/
def Swaption.valuationDate (sp : Swaption) : Date :=
  sp.swap.valuationDate

/-- `Swaption._expiries()`: the supplied non-empty expiry list, defaulting
to `[swap.issue_date]` (Python truthiness: `None` and an empty sequence
both fall through to the default). -/
def Swaption.expiriesOf (sp : Swaption) : List Date :=
  match sp.expiries with
  | some l => if 0 < l.length then l else [sp.swap.issueDate]
  | none => [sp.swap.issueDate]

/-- `Swaption.expiry`: the first expiry. -/
def Swaption.expiry (sp : Swaption) : Date :=
  (sp.expiriesOf).headI

/-- `Swaption.is_expired()`: `valuation_date >= expiry`. -/
def Swaption.isExpired (sp : Swaption) : Bool :=
  decide (sp.expiry ≤ sp.valuationDate)

/-- The exercise object built by `Swaption._exercise()`. -/
inductive ExerciseKind
  | european (d : Date)
  | bermudan (ds : List Date)
  deriving DecidableEq, Repr

/-- `Swaption._exercise()`: European for a single expiry, Bermudan
otherwise. -/
def Swaption.exercise (sp : Swaption) : ExerciseKind :=
  let exps := sp.expiriesOf
  if exps.length = 1 then ExerciseKind.european exps.headI
  else ExerciseKind.bermudan exps

/-- QuantLib `Settlement` flavour. -/
inductive SettlementKind
  | physical
  | cash
  deriving DecidableEq, Repr

/-- `Swaption._settlement()`. -/
def Swaption.settlementKind (sp : Swaption) : SettlementKind :=
  if pyLower sp.settlement = "physical" then SettlementKind.physical
  else SettlementKind.cash

/-- The volatility-dependent engines built by `Swaption._engine`. -/
inductive SwaptionEngine
  | blackEngine (handle : Handle) (vol : ℝ) (dayCounter : Nat)
  | bachelierEngine (handle : Handle) (vol : ℝ) (dayCounter : Nat)

/-- `Swaption._engine(discount_nodes)`: `"black"` (lowercased) selects
`BlackSwaptionEngine`, `"normal"`/`"bachelier"` selects
`BachelierSwaptionEngine`, anything else raises `ValueError`. -/
def Swaption.engineFor (sp : Swaption) (discount_nodes : CurveNodes) :
    Except PyError SwaptionEngine := do
  let fl ← sp.swap.fixedLeg
  let h ← discount_nodes.toHandle
  let t := pyLower sp.vol_type
  if t = "black" then
    Except.ok (SwaptionEngine.blackEngine h sp.volatility fl.base.day_counter)
  else if t = "normal" ∨ t = "bachelier" then
    Except.ok
      (SwaptionEngine.bachelierEngine h sp.volatility fl.base.day_counter)
  else
    Except.error (PyError.valueError "vol_type must be black or normal")

/-- The QuantLib `Swaption` object built by `Swaption._swaption`. -/
structure SwaptionQlArgs where
  vanilla : VanillaSwapArgs
  exercise : ExerciseKind
  settlement : SettlementKind
  engine : SwaptionEngine

/-- The external analytics consumed by the swaption methods. -/
structure SwaptionEnv where
  fairRate : VanillaSwapArgs → ℝ
  npv : SwaptionQlArgs → ℝ
  vegaOf : SwaptionQlArgs → ℝ
  impliedVolOf : SwaptionQlArgs → ℝ → ℝ

/-- `Swaption._vanilla_swap_for_pricing(forecast_index, discount_nodes,
strike)`: first evaluates `base = self.swap._vanilla_swap_ql()` (the
argument-less call, which raises `TypeError`), then would take `k` as the
supplied strike or `base.fairRate()`, and build the payoff `VanillaSwap`
with a discounting engine. -/
def Swaption.vanillaSwapForPricing (env : SwaptionEnv) (G : ScheduleGen)
    (sp : Swaption) (forecast_index : Index) (discount_nodes : CurveNodes)
    (strike : Option ℝ) : Except PyError VanillaSwapArgs := do
  let base ← sp.swap.vanillaSwapQlNoArgs
  let k : ℝ :=
    match strike with
    | none => env.fairRate base
    | some v => v
  let fl ← sp.swap.fixedLeg
  let flo ← sp.swap.floatingLeg
  let h ← discount_nodes.toHandle
  Except.ok
    { isPayer := !sp.swap.receiving_leg.isFixedKind
      nominal := fl.base.nominal
      fixedSchedule := SwapLeg.futureSchedule G fl.base
      fixedRate := k
      fixedDayCounter := fl.base.day_counter
      floatingSchedule := SwapLeg.futureSchedule G flo.base
      index := forecast_index
      spread := flo.spreadOf
      floatingDayCounter := flo.base.day_counter
      engineHandle := h }

/-- `Swaption._swaption(forecast_index, discount_nodes)`. -/
def Swaption.swaptionQl (env : SwaptionEnv) (G : ScheduleGen)
    (sp : Swaption) (forecast_index : Index) (discount_nodes : CurveNodes) :
    Except PyError SwaptionQlArgs := do
  let v ← sp.vanillaSwapForPricing env G forecast_index discount_nodes
    sp.strike
  let e ← sp.engineFor discount_nodes
  Except.ok
    { vanilla := v, exercise := sp.exercise,
      settlement := sp.settlementKind, engine := e }

/-- `Swaption.mark_to_market`: `0.0` when expired, else the engine NPV,
negated for a short position. -/
def Swaption.markToMarket (env : SwaptionEnv) (G : ScheduleGen)
    (sp : Swaption) (forecast_index : Index) (discount_nodes : CurveNodes) :
    Except PyError ℝ :=
  if sp.isExpired then Except.ok 0
  else
    (sp.swaptionQl env G forecast_index discount_nodes).map
      (fun q => if sp.is_long then env.npv q else -(env.npv q))

/-- `Swaption.mtm`: alias for `mark_to_market`. -/
def Swaption.mtm (env : SwaptionEnv) (G : ScheduleGen) (sp : Swaption)
    (forecast_index : Index) (discount_nodes : CurveNodes) :
    Except PyError ℝ :=
  sp.markToMarket env G forecast_index discount_nodes

/-- `Swaption.vega`: `0.0` when expired, else the engine vega with the
same sign handling. -/
def Swaption.vega (env : SwaptionEnv) (G : ScheduleGen) (sp : Swaption)
    (forecast_index : Index) (discount_nodes : CurveNodes) :
    Except PyError ℝ :=
  if sp.isExpired then Except.ok 0
  else
    (sp.swaptionQl env G forecast_index discount_nodes).map
      (fun q => if sp.is_long then env.vegaOf q else -(env.vegaOf q))

/-- `Swaption.implied_volatility(target_npv, ...)`: `0.0` when expired,
else the external root finder on the built swaption (the engine is built a
second time before solving, as in the source). -/
def Swaption.impliedVolatility (env : SwaptionEnv) (G : ScheduleGen)
    (sp : Swaption) (target_npv : ℝ) (forecast_index : Index)
    (discount_nodes : CurveNodes) : Except PyError ℝ :=
  if sp.isExpired then Except.ok 0
  else do
    let q ← sp.swaptionQl env G forecast_index discount_nodes
    let _ ← sp.engineFor discount_nodes
    Except.ok (env.impliedVolOf q target_npv)

/-- `Swaption.atm_strike`: the fair rate of the payoff swap built with
`strike=None`. -/
def Swaption.atmStrike (env : SwaptionEnv) (G : ScheduleGen)
    (sp : Swaption) (forecast_index : Index) (discount_nodes : CurveNodes) :
    Except PyError ℝ :=
  (sp.vanillaSwapForPricing env G forecast_index discount_nodes none).map
    env.fairRate

/-! ## Helper lemmas -/

/-- Filtering a zip of `ds.map f` against `ds` on the date component, then
projecting the first component, is filtering `ds` and mapping `f`. -/
theorem filter_zip_map {α β : Type} (f : α → β) (p : α → Bool) :
    ∀ ds : List α,
      (((ds.map f).zip ds).filter (fun q => p q.2)).map Prod.fst
        = (ds.filter p).map f := by
  intro ds
  induction ds with
  | nil => simp
  | cons d ds ih =>
      by_cases h : p d <;>
        simp [List.filter_cons, h, ih]

/-- Pointwise description of a mapped zip. -/
theorem getD_zip_map (f : Date × ℝ → ℝ) :
    ∀ (ds : List Date) (qs : List ℝ) (i : ℕ), i < ds.length → i < qs.length →
      ((ds.zip qs).map f).getD i 0 = f (ds.getD i 0, qs.getD i 0) := by
  intro ds
  induction ds with
  | nil => intro qs i h1 _; simp at h1
  | cons d ds ih =>
      intro qs i h1 h2
      cases qs with
      | nil => simp at h2
      | cons q qs =>
          cases i with
          | zero => simp
          | succ n =>
              simpa using ih qs n (by simpa using h1) (by simpa using h2)

/-- An in-range `getD` is a member of the list. -/
theorem getD_mem_of_lt {α : Type} (l : List α) (d : α) (i : ℕ)
    (h : i < l.length) : l.getD i d ∈ l := by
  rw [List.getD_eq_getElem l d h]
  exact List.getElem_mem h

/-! ## C2: future schedule / future nominals alignment -/

/-- C2: for every swap leg, `future_schedule` is exactly the schedule dates
strictly beyond the cutoff `valuation_date - tenor`, kept in order, and
`future_nominals` consists of the `nominals` entries at the positions whose
schedule date passes the same cutoff (the constant nominal for plain legs,
the amortized per-date nominal for amortized legs); in particular both
filtered sequences have the same length. -/
theorem c2_future_schedule_and_nominals (G : ScheduleGen) (l : SwapLeg)
    (a : AmortizedSwapLeg) :
    (∀ d : Date, d ∈ SwapLeg.futureSchedule G l ↔
        d ∈ SwapLeg.schedule G l ∧ l.valuation_date - l.tenor < d)
  ∧ (SwapLeg.futureSchedule G l).Sublist (SwapLeg.schedule G l)
  ∧ SwapLeg.futureNominals G l
      = (SwapLeg.futureSchedule G l).map (fun _ => l.nominal)
  ∧ (SwapLeg.futureNominals G l).length
      = (SwapLeg.futureSchedule G l).length
  ∧ AmortizedSwapLeg.futureNominals G a
      = (SwapLeg.futureSchedule G a.toSwapLeg).map (fun date =>
          max 0 (a.nominal -
            (((a.amortizationSchedule G).filter (fun ad => ad ≤ date)).map
              (fun _ => a.amortization_amount)).sum))
  ∧ (AmortizedSwapLeg.futureNominals G a).length
      = (SwapLeg.futureSchedule G a.toSwapLeg).length := by
  have hmem : ∀ d : Date, d ∈ SwapLeg.futureSchedule G l ↔
      d ∈ SwapLeg.schedule G l ∧ l.valuation_date - l.tenor < d := by
    intro d
    simp [SwapLeg.futureSchedule, List.mem_filter]
  have hsub : (SwapLeg.futureSchedule G l).Sublist (SwapLeg.schedule G l) :=
    List.filter_sublist _
  have hplain : SwapLeg.futureNominals G l
      = (SwapLeg.futureSchedule G l).map (fun _ => l.nominal) := by
    simpa [SwapLeg.futureNominals, SwapLeg.futureNominalsOf, SwapLeg.nominals,
      SwapLeg.futureSchedule] using
        filter_zip_map (fun _ : Date => l.nominal)
          (fun d => decide (l.valuation_date - l.tenor < d))
          (SwapLeg.schedule G l)
  have hamort : AmortizedSwapLeg.futureNominals G a
      = (SwapLeg.futureSchedule G a.toSwapLeg).map (fun date =>
          max 0 (a.nominal -
            (((a.amortizationSchedule G).filter (fun ad => ad ≤ date)).map
              (fun _ => a.amortization_amount)).sum)) := by
    simpa [AmortizedSwapLeg.futureNominals, SwapLeg.futureNominalsOf,
      AmortizedSwapLeg.nominals, SwapLeg.futureSchedule] using
        filter_zip_map (fun date : Date =>
            max 0 (a.nominal -
              (((a.amortizationSchedule G).filter (fun ad => ad ≤ date)).map
                (fun _ => a.amortization_amount)).sum))
          (fun d => decide (a.valuation_date - a.tenor < d))
          (SwapLeg.schedule G a.toSwapLeg)
  refine ⟨hmem, hsub, hplain, ?_, hamort, ?_⟩
  · rw [hplain, List.length_map]
  · rw [hamort, List.length_map]

/-! ## C1 and C10: bump semantics and re-validation -/

/-- C1 (amended): `bump` preserves `as_of`, `dates`, day-count, `quote_kind`
and `role`; for `zero`/`flat`/`forward` curves every quote gains
`bp/10000` and the bumped value always re-passes construction validation;
for `discount` curves the quotes are recomputed node-wise as in the source
(`t <= 0` nodes unchanged, otherwise `exp(-(r + bp/10000)*t)` with
`r = -ln(df)/t`), and the bumped value is actually *returned* (rather than
raising in the re-run constructor) when every recomputed quote again lies
in `(0, 1]`. -/
theorem c1_bump_amended (c : CurveNodes) (bp : ℝ) (hc : c.Valid) :
    (c.bump bp).as_of = c.as_of
  ∧ (c.bump bp).dates = c.dates
  ∧ (c.bump bp).day_counter = c.day_counter
  ∧ (c.bump bp).quote_kind = c.quote_kind
  ∧ (c.bump bp).role = c.role
  ∧ (c.quote_kind ≠ QuoteKind.discount →
      (c.bump bp).quotes = c.quotes.map (fun q => q + bp / 10000)
      ∧ (c.bump bp).Valid)
  ∧ (c.quote_kind = QuoteKind.discount →
      (∀ i < c.dates.length,
        (c.bump bp).quotes.getD i 0 =
          if c.day_counter c.as_of (c.dates.getD i 0) ≤ 0 then
            c.quotes.getD i 0
          else
            Real.exp (-((-Real.log (c.quotes.getD i 0) /
                c.day_counter c.as_of (c.dates.getD i 0)) + bp / 10000) *
              c.day_counter c.as_of (c.dates.getD i 0)))
      ∧ ((∀ q ∈ (c.bump bp).quotes, 0 < q ∧ q ≤ 1) → (c.bump bp).Valid)) := by
  obtain ⟨asof, dates, quotes, dc, qk, role⟩ := c
  obtain ⟨hne, hlen, hchain, _hdisc⟩ := hc
  cases qk with
  | zero =>
      refine ⟨rfl, rfl, rfl, rfl, rfl, ?_, ?_⟩
      · intro _
        exact ⟨rfl, hne, by simpa [CurveNodes.bump] using hlen, hchain,
          by intro h; simp [CurveNodes.bump] at h⟩
      · intro h
        simp at h
  | flat =>
      refine ⟨rfl, rfl, rfl, rfl, rfl, ?_, ?_⟩
      · intro _
        exact ⟨rfl, hne, by simpa [CurveNodes.bump] using hlen, hchain,
          by intro h; simp [CurveNodes.bump] at h⟩
      · intro h
        simp at h
  | forward =>
      refine ⟨rfl, rfl, rfl, rfl, rfl, ?_, ?_⟩
      · intro _
        exact ⟨rfl, hne, by simpa [CurveNodes.bump] using hlen, hchain,
          by intro h; simp [CurveNodes.bump] at h⟩
      · intro h
        simp at h
  | discount =>
      refine ⟨rfl, rfl, rfl, rfl, rfl, ?_, ?_⟩
      · intro h
        exact absurd rfl h
      · intro _
        constructor
        · intro i hi
          exact getD_zip_map
            (fun p => if dc asof p.1 ≤ 0 then p.2
              else Real.exp (-((-Real.log p.2 / dc asof p.1) + bp / 10000) *
                dc asof p.1))
            dates quotes i hi (hlen ▸ hi)
        · intro hr
          refine ⟨hne, ?_, hchain, fun _ => hr⟩
          simp [CurveNodes.bump, List.length_zip, hlen]

/-- Concrete Act/365-style year fraction on day serials, used in the
concrete examples. -/
noncomputable def dcAct365 : Date → Date → ℝ :=
  fun d1 d2 => ((d2 - d1 : ℤ) : ℝ) / 365

/-- A validly constructed discount curve holding the (admissible) discount
factor `1.0` one year after `as_of`. -/
noncomputable def dfOneCurve : CurveNodes :=
  { as_of := 0
    dates := [365]
    quotes := [1]
    day_counter := dcAct365
    quote_kind := QuoteKind.discount
    role := CurveRole.discounting }

/-- A validly constructed single-node zero curve. -/
noncomputable def zeroCurveEx : CurveNodes :=
  { as_of := 0
    dates := [365]
    quotes := [1 / 50]
    day_counter := dcAct365
    quote_kind := QuoteKind.zero
    role := CurveRole.discounting }

theorem dfOneCurve_valid : dfOneCurve.Valid := by
  refine ⟨by simp [dfOneCurve], by simp [dfOneCurve], by simp [dfOneCurve], ?_⟩
  intro _ q hq
  simp [dfOneCurve] at hq
  subst hq
  norm_num

theorem dfOneCurve_t_pos :
    0 < dfOneCurve.day_counter dfOneCurve.as_of (dfOneCurve.dates.getD 0 0) := by
  norm_num [dfOneCurve, dcAct365]

theorem dfOneCurve_bump_gt :
    1 < dfOneCurve.quotes.getD 0 0 *
      Real.exp (-((-1 : ℝ) / 10000) *
        dfOneCurve.day_counter dfOneCurve.as_of (dfOneCurve.dates.getD 0 0)) := by
  have h : (1 : ℝ) < Real.exp (1 / 10000) :=
    Real.one_lt_exp_iff.mpr (by norm_num)
  have harg : -((-1 : ℝ) / 10000) *
      dfOneCurve.day_counter dfOneCurve.as_of (dfOneCurve.dates.getD 0 0)
      = 1 / 10000 := by
    norm_num [dfOneCurve, dcAct365]
  rw [harg]
  have hq : dfOneCurve.quotes.getD 0 0 = 1 := by simp [dfOneCurve]
  rw [hq, one_mul]
  exact h

/-- C1 (counterexample): on the valid discount curve holding discount
factor `1.0` at a positive year fraction, `bump(-1)` recomputes the quote
to `exp(1/10000) > 1`, so the `replace(...)` re-construction fails its
`(0, 1]` validation and the call raises instead of returning a value. -/
theorem c1_bump_counterexample :
    dfOneCurve.Valid ∧ dfOneCurve.quote_kind = QuoteKind.discount ∧
    ¬ (dfOneCurve.bump (-1)).Valid := by
  refine ⟨dfOneCurve_valid, rfl, ?_⟩
  rintro ⟨-, -, -, hd⟩
  have ht : ¬ (dcAct365 0 365 ≤ 0) := by norm_num [dcAct365]
  have hmem : Real.exp (1 / 10000) ∈ (dfOneCurve.bump (-1)).quotes := by
    have hquotes : (dfOneCurve.bump (-1)).quotes = [Real.exp (1 / 10000)] := by
      simp [dfOneCurve, CurveNodes.bump, ht]
      norm_num [dcAct365, Real.log_one]
    rw [hquotes]
    exact List.mem_singleton_self _
  obtain ⟨-, hle⟩ := hd rfl _ hmem
  have hgt : (1 : ℝ) < Real.exp (1 / 10000) :=
    Real.one_lt_exp_iff.mpr (by norm_num)
  linarith

/-- C1 (witness): the amended theorem evaluated on a concrete valid zero
curve with `bp = 1`. -/
theorem c1_bump_witness :
    zeroCurveEx.Valid
  ∧ (zeroCurveEx.bump 1).quotes = zeroCurveEx.quotes.map (fun q => q + 1 / 10000)
  ∧ (zeroCurveEx.bump 1).Valid := by
  have hv : zeroCurveEx.Valid := by
    refine ⟨by simp [zeroCurveEx], by simp [zeroCurveEx], by simp [zeroCurveEx], ?_⟩
    intro h
    simp [zeroCurveEx] at h
  have h := (c1_bump_amended zeroCurveEx 1 hv).2.2.2.2.2.1
    (by simp [zeroCurveEx])
  exact ⟨hv, h.1, h.2⟩

/-- C10: the value returned by `bump` has re-passed `__post_init__`, hence
satisfies the constructor invariants; and on a discount curve, whenever
some node with positive year fraction has recomputed discount factor
`df * exp(-(bp/10000)*t) > 1`, the bumped record fails validation, so the
re-run constructor raises instead of returning a value. -/
theorem c10_bump_revalidates (c : CurveNodes) (bp : ℝ) (hc : c.Valid) :
    ((c.bump bp).Valid →
      ((c.bump bp).dates.length = (c.bump bp).quotes.length
        ∧ (c.bump bp).dates.Chain' (· < ·)
        ∧ ((c.bump bp).quote_kind = QuoteKind.discount →
            ∀ q ∈ (c.bump bp).quotes, 0 < q ∧ q ≤ 1)))
  ∧ (c.quote_kind = QuoteKind.discount →
      ∀ i < c.dates.length,
        0 < c.day_counter c.as_of (c.dates.getD i 0) →
        1 < c.quotes.getD i 0 *
            Real.exp (-(bp / 10000) *
              c.day_counter c.as_of (c.dates.getD i 0)) →
        ¬ (c.bump bp).Valid) := by
  constructor
  · intro hv
    exact ⟨hv.2.1, hv.2.2.1, hv.2.2.2⟩
  · obtain ⟨asof, dates, quotes, dc, qk, role⟩ := c
    obtain ⟨hne, hlen, hchain, hdisc⟩ := hc
    intro hk i hi ht hgt hv
    subst hk
    obtain ⟨-, -, -, hd⟩ := hv
    dsimp only [CurveNodes.bump] at hd
    dsimp only at hi ht hgt hlen hdisc
    have hqpos : 0 < quotes.getD i 0 :=
      (hdisc rfl _ (getD_mem_of_lt _ _ _ (hlen ▸ hi))).1
    have htne : dc asof (dates.getD i 0) ≠ 0 := ne_of_gt ht
    have h1 := getD_zip_map
      (fun p => if dc asof p.1 ≤ 0 then p.2
        else Real.exp (-((-Real.log p.2 / dc asof p.1) + bp / 10000) *
          dc asof p.1))
      dates quotes i hi (hlen ▸ hi)
    have hmem : (List.map
        (fun p => if dc asof p.1 ≤ 0 then p.2
          else Real.exp (-((-Real.log p.2 / dc asof p.1) + bp / 10000) *
            dc asof p.1)) (dates.zip quotes)).getD i 0
        ∈ List.map
          (fun p => if dc asof p.1 ≤ 0 then p.2
            else Real.exp (-((-Real.log p.2 / dc asof p.1) + bp / 10000) *
              dc asof p.1)) (dates.zip quotes) := by
      refine getD_mem_of_lt _ _ _ ?_
      rw [List.length_map, List.length_zip]
      exact lt_min hi (hlen ▸ hi)
    obtain ⟨-, hle⟩ := hd rfl _ hmem
    rw [h1] at hle
    dsimp only at hle
    rw [if_neg (not_le.mpr ht)] at hle
    have harg : -((-Real.log (quotes.getD i 0) / dc asof (dates.getD i 0)) +
          bp / 10000) * dc asof (dates.getD i 0)
        = Real.log (quotes.getD i 0) +
            (-(bp / 10000) * dc asof (dates.getD i 0)) := by
      have hdm : -Real.log (quotes.getD i 0) / dc asof (dates.getD i 0) *
          dc asof (dates.getD i 0) = -Real.log (quotes.getD i 0) :=
        div_mul_cancel₀ _ htne
      linear_combination -hdm
    rw [harg, Real.exp_add, Real.exp_log hqpos] at hle
    exact absurd hle (not_le.mpr hgt)

/-- C10 (witness): the theorem evaluated on the concrete discount curve
with `df = 1.0`, `t = 1` and `bp = -1`. -/
theorem c10_bump_witness :
    dfOneCurve.Valid
  ∧ dfOneCurve.quote_kind = QuoteKind.discount
  ∧ 0 < dfOneCurve.day_counter dfOneCurve.as_of (dfOneCurve.dates.getD 0 0)
  ∧ 1 < dfOneCurve.quotes.getD 0 0 *
        Real.exp (-((-1 : ℝ) / 10000) *
          dfOneCurve.day_counter dfOneCurve.as_of (dfOneCurve.dates.getD 0 0))
  ∧ ¬ (dfOneCurve.bump (-1)).Valid := by
  refine ⟨dfOneCurve_valid, rfl, dfOneCurve_t_pos, dfOneCurve_bump_gt, ?_⟩
  exact (c10_bump_revalidates dfOneCurve (-1) dfOneCurve_valid).2 rfl 0
    (by simp [dfOneCurve]) dfOneCurve_t_pos dfOneCurve_bump_gt

/-! ## C9: single-node discount/forward curves never yield a handle -/

/-- C9: the constructor only requires at least one node, but for
`quote_kind` in {`discount`, `forward`} every call of
`yts_handle`/`to_handle`/`discount_factor` on a single-node value raises
the at-least-two-nodes `ValueError`, so such a value can never produce a
discount factor. -/
theorem c9_single_node_no_handle (c : CurveNodes)
    (hk : c.quote_kind = QuoteKind.discount ∨ c.quote_kind = QuoteKind.forward)
    (h1 : c.quotes.length = 1) :
    (∃ m, c.ytsHandle = Except.error (PyError.valueError m))
  ∧ (∃ m, c.toHandle = Except.error (PyError.valueError m))
  ∧ (∀ disc d, ∃ m,
      c.discountFactor disc d = Except.error (PyError.valueError m)) := by
  obtain ⟨asof, dates, quotes, dc, qk, role⟩ := c
  dsimp only at hk h1
  have herr : ∃ m,
      CurveNodes.ytsHandle ⟨asof, dates, quotes, dc, qk, role⟩
        = Except.error (PyError.valueError m) := by
    rcases hk with hk | hk <;> subst hk
    · exact ⟨"discount curve needs at least two discount nodes",
        by simp [CurveNodes.ytsHandle, h1]⟩
    · exact ⟨"forward curve needs at least two nodes",
        by simp [CurveNodes.ytsHandle, h1]⟩
  obtain ⟨m, hm⟩ := herr
  refine ⟨⟨m, hm⟩, ⟨m, ?_⟩, ?_⟩
  · simpa [CurveNodes.toHandle] using hm
  · intro disc d
    exact ⟨m, by simp [CurveNodes.discountFactor, hm, Except.map]⟩

/-- C9 (witness): a concrete single-node discount curve is accepted by the
constructor yet every handle/discount-factor query errors. -/
theorem c9_single_node_witness :
    dfOneCurve.Valid
  ∧ (∃ m, dfOneCurve.ytsHandle = Except.error (PyError.valueError m))
  ∧ (∃ m, dfOneCurve.toHandle = Except.error (PyError.valueError m))
  ∧ (∃ m, dfOneCurve.discountFactor (fun _ _ => 1) 5
        = Except.error (PyError.valueError m)) := by
  have h := c9_single_node_no_handle dfOneCurve (Or.inl rfl)
    (by simp [dfOneCurve])
  exact ⟨dfOneCurve_valid, h.1, h.2.1, h.2.2 (fun _ _ => 1) 5⟩

/-! ## C4: InterestRateSwap construction invariants -/

theorem AnyLeg.not_floating_of_fixed (l : AnyLeg) (h : l.isFixedKind = true) :
    l.isFloatingKind = false := by
  cases l <;> simp_all [AnyLeg.isFixedKind, AnyLeg.isFloatingKind]

theorem AnyLeg.not_fixed_of_floating (l : AnyLeg)
    (h : l.isFloatingKind = true) : l.isFixedKind = false := by
  cases l <;> simp_all [AnyLeg.isFixedKind, AnyLeg.isFloatingKind]

/-- A concrete fixed leg, expired relative to its valuation date. -/
def fixedLegEx : FixedLeg :=
  { valuation_date := 10
    nominal := 1000000
    currency := "EUR"
    issue_date := 0
    maturity := 5
    tenor := 180
    calendar := 0
    day_counter := 1
    rate := 23 / 1000 }

/-- A concrete floating leg matching `fixedLegEx` on the aligned fields. -/
def floatLegEx : FloatingLeg :=
  { valuation_date := 10
    nominal := 1000000
    currency := "EUR"
    issue_date := 0
    maturity := 5
    tenor := 90
    calendar := 0
    day_counter := 1
    index := some 3
    gearing := 1
    spread := 0 }

/-- C4: `InterestRateSwap` construction raises exactly when the two legs
are of the same kind (both fixed-kind or both floating-kind) or disagree on
`valuation_date`, `issue_date`, `maturity` or `currency`; one fixed-kind
and one floating-kind leg agreeing on all four fields construct
successfully. -/
theorem c4_swap_construction (p r : AnyLeg) :
    ((∃ e, InterestRateSwap.construct p r = Except.error e) ↔
      ((p.isFixedKind ∧ r.isFixedKind)
        ∨ (p.isFloatingKind ∧ r.isFloatingKind)
        ∨ p.base.valuation_date ≠ r.base.valuation_date
        ∨ p.base.issue_date ≠ r.base.issue_date
        ∨ p.base.maturity ≠ r.base.maturity
        ∨ p.base.currency ≠ r.base.currency))
  ∧ (((p.isFixedKind ∧ r.isFloatingKind)
        ∨ (p.isFloatingKind ∧ r.isFixedKind)) →
      p.base.valuation_date = r.base.valuation_date →
      p.base.issue_date = r.base.issue_date →
      p.base.maturity = r.base.maturity →
      p.base.currency = r.base.currency →
      InterestRateSwap.construct p r
        = Except.ok { paying_leg := p, receiving_leg := r }) := by
  constructor
  · constructor
    · rintro ⟨e, he⟩
      unfold InterestRateSwap.construct at he
      split_ifs at he with h1 h2 h3 h4 h5 h6 <;> tauto
    · intro h
      unfold InterestRateSwap.construct
      split_ifs with h1 h2 h3 h4 h5 h6 <;>
        first
          | exact ⟨_, rfl⟩
          | tauto
  · intro hk h1 h2 h3 h4
    have hnf : ¬(p.isFixedKind ∧ r.isFixedKind) := by
      rcases hk with ⟨hpf, hrl⟩ | ⟨hpl, hrf⟩
      · simp [AnyLeg.not_fixed_of_floating r hrl]
      · simp [AnyLeg.not_fixed_of_floating p hpl]
    have hnl : ¬(p.isFloatingKind ∧ r.isFloatingKind) := by
      rcases hk with ⟨hpf, hrl⟩ | ⟨hpl, hrf⟩
      · simp [AnyLeg.not_floating_of_fixed p hpf]
      · simp [AnyLeg.not_floating_of_fixed r hrf]
    unfold InterestRateSwap.construct
    rw [if_neg hnf, if_neg hnl, if_neg (by simp [h1]), if_neg (by simp [h2]),
      if_neg (by simp [h3]), if_neg (by simp [h4])]

/-- C4 (witness): one fixed leg plus one floating leg agreeing on
valuation/issue/maturity/currency constructs successfully. -/
theorem c4_swap_construction_witness :
    InterestRateSwap.construct (AnyLeg.fixedLeg fixedLegEx)
      (AnyLeg.floatingLeg floatLegEx)
      = Except.ok { paying_leg := AnyLeg.fixedLeg fixedLegEx
                    receiving_leg := AnyLeg.floatingLeg floatLegEx } :=
  (c4_swap_construction _ _).2 (Or.inl ⟨rfl, rfl⟩) rfl rfl rfl rfl

/-! ## C8: FloatingLeg.cashflows index resolution -/

/-- C8: `FloatingLeg.cashflows` raises exactly when no index is supplied
and none is bound; otherwise it builds the floating coupon arguments over
`future_schedule` with the explicit index preferred over the bound one and
with `gearing`/`spread` applied uniformly (one entry per non-terminal
schedule date). -/
theorem c8_floating_cashflows (G : ScheduleGen) (l : FloatingLeg)
    (fidx : Option Index) :
    ((∃ m, l.cashflows G fidx = Except.error (PyError.valueError m)) ↔
      (fidx = none ∧ l.index = none))
  ∧ (∀ i, fidx = some i →
      l.cashflows G fidx = Except.ok
        { nominals := (SwapLeg.futureNominals G l.toSwapLeg).dropLast
          scheduleDates := SwapLeg.futureSchedule G l.toSwapLeg
          index := i
          paymentDayCounter := l.day_counter
          gearings := ((SwapLeg.futureSchedule G l.toSwapLeg).dropLast).map
            (fun _ => l.gearing)
          spreads := ((SwapLeg.futureSchedule G l.toSwapLeg).dropLast).map
            (fun _ => l.spread) })
  ∧ (fidx = none → ∀ j, l.index = some j →
      l.cashflows G fidx = Except.ok
        { nominals := (SwapLeg.futureNominals G l.toSwapLeg).dropLast
          scheduleDates := SwapLeg.futureSchedule G l.toSwapLeg
          index := j
          paymentDayCounter := l.day_counter
          gearings := ((SwapLeg.futureSchedule G l.toSwapLeg).dropLast).map
            (fun _ => l.gearing)
          spreads := ((SwapLeg.futureSchedule G l.toSwapLeg).dropLast).map
            (fun _ => l.spread) })
  ∧ (∀ args, l.cashflows G fidx = Except.ok args →
      (∀ g ∈ args.gearings, g = l.gearing)
      ∧ (∀ s ∈ args.spreads, s = l.spread)
      ∧ args.gearings.length = args.scheduleDates.length - 1
      ∧ args.spreads.length = args.scheduleDates.length - 1) := by
  have hP : ∀ idx : Index,
      (∀ g ∈ (((SwapLeg.futureSchedule G l.toSwapLeg).dropLast).map
          (fun _ => l.gearing)), g = l.gearing)
      ∧ (∀ s ∈ (((SwapLeg.futureSchedule G l.toSwapLeg).dropLast).map
          (fun _ => l.spread)), s = l.spread)
      ∧ (IborLegArgs.mk ((SwapLeg.futureNominals G l.toSwapLeg).dropLast)
          (SwapLeg.futureSchedule G l.toSwapLeg) idx l.day_counter
          (((SwapLeg.futureSchedule G l.toSwapLeg).dropLast).map
            (fun _ => l.gearing))
          (((SwapLeg.futureSchedule G l.toSwapLeg).dropLast).map
            (fun _ => l.spread))).gearings.length
          = (SwapLeg.futureSchedule G l.toSwapLeg).length - 1 := by
    intro idx
    refine ⟨?_, ?_, by simp⟩
    · intro g hg
      simp [List.mem_map] at hg
      obtain ⟨-, h⟩ := hg
      exact h
    · intro s hs
      simp [List.mem_map] at hs
      obtain ⟨-, h⟩ := hs
      exact h
  have huniform : ∀ args, l.cashflows G fidx = Except.ok args →
      (∀ g ∈ args.gearings, g = l.gearing)
      ∧ (∀ s ∈ args.spreads, s = l.spread)
      ∧ args.gearings.length = args.scheduleDates.length - 1
      ∧ args.spreads.length = args.scheduleDates.length - 1 := by
    intro args hargs
    cases fidx with
    | some i =>
        simp only [FloatingLeg.cashflows, FloatingLeg.cashflowsWith,
          Except.ok.injEq] at hargs
        rw [← hargs]
        exact ⟨(hP i).1, (hP i).2.1, by simp, by simp⟩
    | none =>
        cases hl : l.index with
        | none =>
            rw [FloatingLeg.cashflows, FloatingLeg.cashflowsWith, hl] at hargs
            simp at hargs
        | some j =>
            rw [FloatingLeg.cashflows, FloatingLeg.cashflowsWith, hl] at hargs
            simp only [Except.ok.injEq] at hargs
            rw [← hargs]
            exact ⟨(hP j).1, (hP j).2.1, by simp, by simp⟩
  refine ⟨?_, ?_, ?_, huniform⟩
  · constructor
    · rintro ⟨m, hm⟩
      cases fidx with
      | some i =>
          simp [FloatingLeg.cashflows, FloatingLeg.cashflowsWith] at hm
      | none =>
          cases hl : l.index with
          | none => exact ⟨rfl, rfl⟩
          | some j =>
              rw [FloatingLeg.cashflows, FloatingLeg.cashflowsWith, hl] at hm
              simp at hm
    · rintro ⟨hf, hl⟩
      subst hf
      exact ⟨_, by rw [FloatingLeg.cashflows, FloatingLeg.cashflowsWith, hl]⟩
  · rintro i rfl
    rfl
  · rintro rfl j hl
    rw [FloatingLeg.cashflows, FloatingLeg.cashflowsWith, hl]

/-- A floating leg with no bound index. -/
def floatLegNoIdx : FloatingLeg :=
  { floatLegEx with index := none }

/-- A trivial two-date schedule generator for concrete evaluations. -/
def G0 : ScheduleGen :=
  { gen := fun s e _ _ => [s, e] }

/-- C8 (witness): with neither argument nor bound index the call errors;
with an explicit index it succeeds and uses that index. -/
theorem c8_floating_cashflows_witness :
    (∃ m, floatLegNoIdx.cashflows G0 none
        = Except.error (PyError.valueError m))
  ∧ (∃ args, floatLegNoIdx.cashflows G0 (some 9) = Except.ok args
      ∧ args.index = 9) := by
  constructor
  · exact (c8_floating_cashflows G0 floatLegNoIdx none).1.mpr ⟨rfl, rfl⟩
  · exact ⟨_, (c8_floating_cashflows G0 floatLegNoIdx (some 9)).2.1 9 rfl, rfl⟩

/-! ## C5: amortized-leg construction with negative un-floored nominal -/

/-- An amortized leg whose cumulative amortization (2 x 60) exceeds the
nominal (100) at the final payment date, so the un-floored per-period
nominal there is `100 - 120 = -20 < 0`. -/
def amortLegEx : AmortizedSwapLeg :=
  { valuation_date := 0
    nominal := 100
    currency := "EUR"
    issue_date := 0
    maturity := 100
    tenor := 50
    calendar := 0
    day_counter := 1
    amortization_amount := 60
    amortization_period := 10
    amortization_first_date := 10
    amortization_last_date := 20 }

/-- C5 (code evaluated at the failing input): although the un-floored
nominal at the last payment date is negative (`-20`), construction
*succeeds* — `nominals` floors at zero first, so the `__post_init__` check
`all(nominal >= 0 ...)` can never fail and no `ValueError` is raised; the
computed nominals are silently corrected to `[100, 0]`. -/
theorem c5_amortized_negative_constructs :
    AmortizedSwapLeg.construct ["EUR"] G0 amortLegEx = Except.ok amortLegEx
  ∧ AmortizedSwapLeg.nominals G0 amortLegEx = [100, 0]
  ∧ amortLegEx.nominal -
      (((amortLegEx.amortizationSchedule G0).filter
        (fun ad => ad ≤ (100 : Date))).map
        (fun _ => amortLegEx.amortization_amount)).sum < 0 := by
  have hnoms : AmortizedSwapLeg.nominals G0 amortLegEx = [100, 0] := by
    simp [AmortizedSwapLeg.nominals, AmortizedSwapLeg.amortizationSchedule,
      SwapLeg.schedule, G0, amortLegEx, List.filter, max_def]
    norm_num
  have hpost : SwapLeg.postInit ["EUR"] amortLegEx.toSwapLeg = Except.ok () := by
    norm_num [SwapLeg.postInit, amortLegEx]
  refine ⟨?_, hnoms, ?_⟩
  · simp [AmortizedSwapLeg.construct, AmortizedSwapLeg.postInit, hpost, hnoms,
      Except.bind]
    rfl
  · norm_num [amortLegEx, AmortizedSwapLeg.amortizationSchedule, G0,
      List.filter]

/-! ## C6: the swaption payoff builder always raises TypeError -/

/-- C6 (code evaluated at the failing call): `_vanilla_swap_for_pricing`
always evaluates `base = self.swap._vanilla_swap_ql()` first — a call that
omits both required positional arguments — so for *every* swaption, strike
and input it raises `TypeError` before any strike/fair-rate handling, and
`atm_strike` fails the same way. -/
theorem c6_payoff_swap_type_error (env : SwaptionEnv) (G : ScheduleGen)
    (sp : Swaption) (fi : Index) (nodes : CurveNodes) (strike : Option ℝ) :
    sp.vanillaSwapForPricing env G fi nodes strike
      = Except.error (PyError.typeError
          "_vanilla_swap_ql() missing 2 required positional arguments: forecast_index and discount_nodes")
  ∧ sp.atmStrike env G fi nodes
      = Except.error (PyError.typeError
          "_vanilla_swap_ql() missing 2 required positional arguments: forecast_index and discount_nodes") :=
  ⟨rfl, rfl⟩

/-! ## Fixtures for the instrument-level claims -/

/-- A valid single-node flat curve usable as discounting nodes. -/
noncomputable def flatNodesEx : CurveNodes :=
  { as_of := 0
    dates := [18250]
    quotes := [1 / 50]
    day_counter := dcAct365
    quote_kind := QuoteKind.flat
    role := CurveRole.discounting }

/-- An expired swap (valuation date 10 at maturity 5). -/
def swapEx : InterestRateSwap :=
  { paying_leg := AnyLeg.fixedLeg fixedLegEx
    receiving_leg := AnyLeg.floatingLeg floatLegEx }

/-- A pricing environment whose `legBPS` output is the sentinel `42`. -/
noncomputable def env42 : PricingEnv :=
  { npv := fun _ => 0
    legBPS := fun _ _ => 42
    cloneIndex := fun i _ => i }

/-- A trivial swaption analytics environment. -/
noncomputable def senv0 : SwaptionEnv :=
  { fairRate := fun _ => 0
    npv := fun _ => 0
    vegaOf := fun _ => 0
    impliedVolOf := fun _ _ => 0 }

/-- An expired swaption (valuation date 10 at expiry 5). -/
noncomputable def spEx : Swaption :=
  { swap := swapEx
    expiries := some [5]
    strike := none
    volatility := 1 / 100
    vol_type := "black"
    settlement := "physical"
    is_long := true }

/-- The same swaption with the vol type the specification names. -/
noncomputable def spLog : Swaption :=
  { spEx with vol_type := "lognormal" }

/-! ## C7: engine selection by vol_type -/

/-- C7 (counterexample): `vol_type = "lognormal"` does not select the
Black engine — `_engine` recognises only `"black"`, `"normal"` and
`"bachelier"` and raises `ValueError` for `"lognormal"`. -/
theorem c7_lognormal_counterexample :
    spLog.vol_type = "lognormal"
  ∧ Swaption.engineFor spLog flatNodesEx
      = Except.error (PyError.valueError "vol_type must be black or normal") :=
  ⟨rfl, rfl⟩

/-- C7 (amended): for a swaption whose fixed leg and discount handle
resolve, the engine is selected by the lowercased `vol_type` — `"black"`
gives the Black (lognormal) engine, `"normal"`/`"bachelier"` the Bachelier
(normal) engine, and anything else (including `"lognormal"`) raises
`ValueError`; and for a non-expired swaption `mark_to_market` is the raw
engine NPV of the built swaption, negated when `is_long` is false. -/
theorem c7_engine_selection_amended (sp : Swaption) (nodes : CurveNodes)
    (fl : AnyLeg) (h : Handle)
    (hfl : sp.swap.fixedLeg = Except.ok fl)
    (hh : nodes.toHandle = Except.ok h) :
    (pyLower sp.vol_type = "black" →
      sp.engineFor nodes = Except.ok
        (SwaptionEngine.blackEngine h sp.volatility fl.base.day_counter))
  ∧ ((pyLower sp.vol_type = "normal" ∨ pyLower sp.vol_type = "bachelier") →
      sp.engineFor nodes = Except.ok
        (SwaptionEngine.bachelierEngine h sp.volatility fl.base.day_counter))
  ∧ (pyLower sp.vol_type ≠ "black" → pyLower sp.vol_type ≠ "normal" →
      pyLower sp.vol_type ≠ "bachelier" →
      sp.engineFor nodes
        = Except.error (PyError.valueError "vol_type must be black or normal"))
  ∧ (∀ env G fi, sp.isExpired = false →
      sp.markToMarket env G fi nodes
        = (sp.swaptionQl env G fi nodes).map
            (fun q => if sp.is_long then env.npv q else -(env.npv q))) := by
  refine ⟨?_, ?_, ?_, ?_⟩
  · intro ht
    simp [Swaption.engineFor, hfl, hh, ht]
    rfl
  · rintro (ht | ht) <;>
      (simp [Swaption.engineFor, hfl, hh, ht]; rfl)
  · intro h1 h2 h3
    simp [Swaption.engineFor, hfl, hh, h1, h2, h3]
    rfl
  · intro env G fi hx
    simp [Swaption.markToMarket, hx]

/-- C7 (witness): the amended selection evaluated at `vol_type = "black"`
on concrete inputs. -/
theorem c7_engine_selection_witness :
    Swaption.engineFor spEx flatNodesEx
      = Except.ok (SwaptionEngine.blackEngine
          (Handle.flatForward 0 (1 / 50) dcAct365) (1 / 100) 1) :=
  (c7_engine_selection_amended spEx flatNodesEx (AnyLeg.fixedLeg fixedLegEx)
    (Handle.flatForward 0 (1 / 50) dcAct365) rfl rfl).1 rfl

/-! ## C3: expiry short-circuit -/

/-- Reduction of an `Except` bind over a success value. -/
theorem bind_ok_reduce {ε α β : Type} (a : α) (f : α → Except ε β) :
    (Except.ok (ε := ε) a >>= f) = f a := rfl

/-- C3 (counterexample): `pv01` performs the engine computation even on an
expired swap — with `legBPS` returning the sentinel `42`, the expired
`swapEx` yields `42`, not `0.0`. -/
theorem c3_expired_pv01_counterexample :
    InterestRateSwap.isExpired swapEx = true
  ∧ InterestRateSwap.pv01 env42 G0 swapEx flatNodesEx (some 7)
      = Except.ok 42 :=
  ⟨rfl, rfl⟩

/-- C3 (amended): for expired instruments, `mark_to_market`/`mtm` on the
swap and `mark_to_market`/`mtm`/`vega`/`implied_volatility` on the
swaption return exactly `0.0` for *every* pricing environment (so no
engine is consulted); but `pv01`, `dv01`, `ir01_discount` and
`ir01_forecast` carry no expiry check and return the engine outputs even
when the swap is expired. -/
theorem c3_expiry_amended (env : PricingEnv) (senv : SwaptionEnv)
    (G : ScheduleGen) (s : InterestRateSwap) (nodes forecast_nodes : CurveNodes)
    (fidx : Option Index) (sp : Swaption) (fi : Index) (target bump_bp : ℝ)
    (hs : s.isExpired = true) (hsp : sp.isExpired = true) :
    s.markToMarket env G nodes fidx = Except.ok 0
  ∧ s.mtm env G fidx nodes = Except.ok 0
  ∧ sp.markToMarket senv G fi nodes = Except.ok 0
  ∧ sp.mtm senv G fi nodes = Except.ok 0
  ∧ sp.vega senv G fi nodes = Except.ok 0
  ∧ sp.impliedVolatility senv G target fi nodes = Except.ok 0
  ∧ (∀ q fl, s.fixedLeg = Except.ok fl → s.swapQl G fidx nodes = Except.ok q →
      s.pv01 env G nodes fidx = Except.ok
        (env.legBPS q (if s.receiving_leg.isFixedKind then 1 else 0)))
  ∧ (∀ q fl, s.floatingLeg = Except.ok fl →
      s.swapQl G fidx nodes = Except.ok q →
      s.dv01 env G nodes fidx = Except.ok
        (env.legBPS q (if s.receiving_leg.isFloatingKind then 1 else 0)))
  ∧ (∀ q q', s.swapQl G fidx nodes = Except.ok q →
      s.swapQl G fidx (nodes.bump bump_bp) = Except.ok q' →
      s.ir01Discount env G nodes fidx bump_bp
        = Except.ok ((env.npv q' - env.npv q) / bump_bp))
  ∧ (∀ i0 h q q', s.resolveIndex fidx = Except.ok i0 →
      (forecast_nodes.bump bump_bp).ytsHandle = Except.ok h →
      s.swapQl G (some i0) nodes = Except.ok q →
      s.swapQl G (some (env.cloneIndex i0 h)) nodes = Except.ok q' →
      s.ir01Forecast env G forecast_nodes nodes fidx bump_bp
        = Except.ok ((env.npv q' - env.npv q) / bump_bp)) := by
  refine ⟨?_, ?_, ?_, ?_, ?_, ?_, ?_, ?_, ?_, ?_⟩
  · simp [InterestRateSwap.markToMarket, hs]
  · simp [InterestRateSwap.mtm, InterestRateSwap.markToMarket, hs]
  · simp [Swaption.markToMarket, hsp]
  · simp [Swaption.mtm, Swaption.markToMarket, hsp]
  · simp [Swaption.vega, hsp]
  · simp [Swaption.impliedVolatility, hsp]
  · intro q fl hfl hq
    simp [InterestRateSwap.pv01, hfl, hq, bind_ok_reduce]
  · intro q fl hfl hq
    simp [InterestRateSwap.dv01, hfl, hq, bind_ok_reduce]
  · intro q q' hq hq'
    simp [InterestRateSwap.ir01Discount, hq, hq', bind_ok_reduce, Except.map]
  · intro i0 h q q' hi0 hh hq hq'
    simp [InterestRateSwap.ir01Forecast, hi0, hh, bind_ok_reduce, Except.map,
      hq, hq']

/-- C3 (witness): the amended theorem evaluated on the concrete expired
swap and swaption. -/
theorem c3_expiry_witness :
    InterestRateSwap.markToMarket env42 G0 swapEx flatNodesEx (some 7)
      = Except.ok 0
  ∧ InterestRateSwap.mtm env42 G0 swapEx (some 7) flatNodesEx = Except.ok 0
  ∧ Swaption.markToMarket senv0 G0 spEx 7 flatNodesEx = Except.ok 0
  ∧ Swaption.mtm senv0 G0 spEx 7 flatNodesEx = Except.ok 0
  ∧ Swaption.vega senv0 G0 spEx 7 flatNodesEx = Except.ok 0
  ∧ Swaption.impliedVolatility senv0 G0 spEx 0 7 flatNodesEx
      = Except.ok 0 := by
  obtain ⟨h1, h2, h3, h4, h5, h6, -⟩ :=
    c3_expiry_amended env42 senv0 G0 swapEx flatNodesEx flatNodesEx (some 7)
      spEx 7 0 1 rfl rfl
  exact ⟨h1, h2, h3, h4, h5, h6⟩

/-- C2 (witness): the alignment theorem evaluated on concrete legs and a
concrete schedule generator. -/
theorem c2_future_schedule_witness :
    (SwapLeg.futureNominals G0 floatLegEx.toSwapLeg).length
      = (SwapLeg.futureSchedule G0 floatLegEx.toSwapLeg).length
  ∧ (AmortizedSwapLeg.futureNominals G0 amortLegEx).length
      = (SwapLeg.futureSchedule G0 amortLegEx.toSwapLeg).length := by
  obtain ⟨-, -, -, h1, -, h2⟩ :=
    c2_future_schedule_and_nominals G0 floatLegEx.toSwapLeg amortLegEx
  exact ⟨h1, h2⟩

/-- C6 (witness): the payoff-builder theorem evaluated at a concrete
swaption, with and without a supplied strike. -/
theorem c6_payoff_swap_witness :
    spEx.vanillaSwapForPricing senv0 G0 7 flatNodesEx (some (2 / 100))
      = Except.error (PyError.typeError
          "_vanilla_swap_ql() missing 2 required positional arguments: forecast_index and discount_nodes")
  ∧ spEx.atmStrike senv0 G0 7 flatNodesEx
      = Except.error (PyError.typeError
          "_vanilla_swap_ql() missing 2 required positional arguments: forecast_index and discount_nodes") :=
  c6_payoff_swap_type_error senv0 G0 spEx 7 flatNodesEx (some (2 / 100))

end PricingEngine
